import Mathlib

/-!
Verification of `organize_pictures.py` (zach18/organizephotos).

The script is shallowly embedded: the filesystem is a finite list of files
(with their directory/stem/extension split as `pathlib` computes it, their
EXIF tag list as decoded by `PIL.ExifTags.TAGS`, and their timestamps) plus
a list of directories.  Python exceptions are modelled with `Except`;
environment-induced I/O failures (permission denied, disk full, ...) that
`shutil.move` / `os.utime` / `win32_setctime.setctime` may raise are
modelled by per-file fault flags.  All definitions are executable.
-/

namespace OrganizePhotos

/-- Calendar date and time, the payload of Python's `datetime` that the
script observes (`strftime("%Y"/"%m"/"%d")`, `strptime`, timestamp writes).
Conversion between Unix timestamps and local calendar time
(`datetime.timestamp` / `datetime.fromtimestamp`) is abstracted as the
identity on this record: file timestamps are stored as local date-times. -/
structure DateTime where
  year : Nat
  month : Nat
  day : Nat
  hour : Nat
  minute : Nat
  second : Nat
deriving DecidableEq, Repr

/-! ### Decimal rendering of naturals

Models Python's `str(counter)` inside the f-string
`f"{stem}-copy{counter}{suffix}"` (and the counts printed in the summary).
Defined with explicit fuel so that it reduces in the kernel; `n + 1` units
of fuel always suffice because the argument shrinks by a factor of 10. -/

def digitChar (n : Nat) : Char := Char.ofNat (48 + n)

def digitVal (c : Char) : Nat := c.toNat - 48

def natReprCore : Nat → Nat → List Char
  | 0, _ => []
  | fuel + 1, n =>
    if n < 10 then [digitChar n]
    else natReprCore fuel (n / 10) ++ [digitChar (n % 10)]

def natRepr (n : Nat) : String := ⟨natReprCore (n + 1) n⟩

/-- Decimal value of a digit string; inverse used to prove `natRepr` injective. -/
def listToNat (cs : List Char) : Nat := cs.foldl (fun a c => 10 * a + digitVal c) 0

theorem listToNat_append_singleton (l : List Char) (c : Char) :
    listToNat (l ++ [c]) = 10 * listToNat l + digitVal c := by
  simp [listToNat, List.foldl_append]

theorem digitVal_digitChar {n : Nat} (h : n < 10) : digitVal (digitChar n) = n := by
  interval_cases n <;> rfl

theorem listToNat_natReprCore : ∀ fuel n, n < fuel → listToNat (natReprCore fuel n) = n := by
  intro fuel
  induction fuel with
  | zero => intro n h; omega
  | succ fuel ih =>
    intro n h
    by_cases h10 : n < 10
    · simp only [natReprCore, if_pos h10]
      simpa [listToNat] using digitVal_digitChar h10
    · have hpos : 10 ≤ n := by omega
      have hdiv : n / 10 < n := Nat.div_lt_self (by omega) (by omega)
      simp only [natReprCore, if_neg h10]
      rw [listToNat_append_singleton, ih (n / 10) (by omega),
        digitVal_digitChar (Nat.mod_lt _ (by omega))]
      omega

theorem natRepr_inj {m n : Nat} (h : natRepr m = natRepr n) : m = n := by
  have hd : natReprCore (m + 1) m = natReprCore (n + 1) n := congrArg String.data h
  have hm := listToNat_natReprCore (m + 1) m (Nat.lt_succ_self m)
  have hn := listToNat_natReprCore (n + 1) n (Nat.lt_succ_self n)
  rw [← hm, ← hn, hd]

theorem natReprCore_ne_nil (fuel n : Nat) : natReprCore (fuel + 1) n ≠ [] := by
  by_cases h10 : n < 10 <;> simp [natReprCore, h10]

theorem natRepr_length_pos (n : Nat) : 0 < (natRepr n).length := by
  have h := natReprCore_ne_nil n n
  have : (natRepr n).data = natReprCore (n + 1) n := rfl
  rw [String.length, this]
  exact List.length_pos.mpr h

/-! ### EXIF date parsing

Models `datetime.strptime(value, "%Y:%m:%d %H:%M:%S")` (source line 28):
a four-digit year, then one- or two-digit month/day/hour/minute/second
fields separated by the literal layout characters, the whole string
consumed, and the field ranges that `datetime` accepts (a real calendar
date, hour < 24, minute/second < 60).  Failure is `none`, modelling the
`ValueError` the call raises. -/

/-- Take up to `w` leading decimal digits. -/
def takeDigits : Nat → List Char → List Char × List Char
  | 0, cs => ([], cs)
  | _ + 1, [] => ([], [])
  | w + 1, c :: cs =>
    if c.isDigit then
      let (ds, rest) := takeDigits w cs
      (c :: ds, rest)
    else ([], c :: cs)

/-- Parse a 1-to-`w`-digit numeric field. -/
def parseField (w : Nat) (cs : List Char) : Option (Nat × List Char) :=
  match takeDigits w cs with
  | ([], _) => none
  | (ds, rest) => some (listToNat ds, rest)

def expectChar (c : Char) : List Char → Option (List Char)
  | [] => none
  | d :: rest => if d = c then some rest else none

def isLeapYear (y : Nat) : Bool := y % 4 = 0 && (y % 100 ≠ 0 || y % 400 = 0)

def daysInMonth (y m : Nat) : Nat :=
  if m = 2 then (if isLeapYear y then 29 else 28)
  else if m = 4 ∨ m = 6 ∨ m = 9 ∨ m = 11 then 30
  else 31

def parseExifDate (s : String) : Option DateTime :=
  match takeDigits 4 s.data with
  | (yds, r1) =>
    if yds.length = 4 then
      (expectChar ':' r1).bind fun r2 =>
      (parseField 2 r2).bind fun (m, r3) =>
      (expectChar ':' r3).bind fun r4 =>
      (parseField 2 r4).bind fun (d, r5) =>
      (expectChar ' ' r5).bind fun r6 =>
      (parseField 2 r6).bind fun (hh, r7) =>
      (expectChar ':' r7).bind fun r8 =>
      (parseField 2 r8).bind fun (mm, r9) =>
      (expectChar ':' r9).bind fun r10 =>
      (parseField 2 r10).bind fun (ss, r11) =>
        let y := listToNat yds
        if r11 = [] ∧ 1 ≤ y ∧ 1 ≤ m ∧ m ≤ 12 ∧ 1 ≤ d ∧ d ≤ daysInMonth y m ∧
            hh ≤ 23 ∧ mm ≤ 59 ∧ ss ≤ 59 then
          some ⟨y, m, d, hh, mm, ss⟩
        else none
    else none

/-! ### The filesystem model -/

/-- Result of `Image.open(path)._getexif()` for one file.
`err` models the call raising (not an image, corrupt, decode error);
`noData` models `_getexif()` returning `None`; `tags` holds the tag
name/value pairs in dictionary iteration order, names already decoded
through `PIL.ExifTags.TAGS` as source line 24 does. -/
inductive ExifRead where
  | err (msg : String)
  | noData
  | tags (l : List (String × String))
deriving DecidableEq, Repr

/-- One regular file.  `dir`/`stem`/`ext` are the `pathlib` decomposition
(`ext` is `Path.suffix`, including the dot); the full path is
`dir ++ "/" ++ stem ++ ext`.  `mtime`/`ctime` are the stored timestamps as
local date-times.  The three fault flags model the environment making the
corresponding system call raise `OSError` (permission denied, disk full,
file locked, ...) when the organizer processes this file. -/
structure FSFile where
  dir : String
  stem : String
  ext : String
  exif : ExifRead
  mtime : DateTime
  ctime : DateTime
  moveFault : Bool
  utimeFault : Bool
  ctimeFault : Bool
deriving DecidableEq, Repr

def FSFile.name (f : FSFile) : String := f.stem ++ f.ext

def FSFile.path (f : FSFile) : String := f.dir ++ "/" ++ f.stem ++ f.ext

/-- Filesystem: existing regular files and existing directories. -/
structure FS where
  files : List FSFile
  dirs : List String
deriving DecidableEq, Repr

/-- Every existing path, file or directory; `Path.exists()` checks both. -/
def FS.paths (fs : FS) : List String := fs.files.map FSFile.path ++ fs.dirs

def pathExists (fs : FS) (p : String) : Prop := p ∈ fs.paths

instance (fs : FS) (p : String) : Decidable (pathExists fs p) :=
  inferInstanceAs (Decidable (p ∈ fs.paths))

/-! ### DateResolver: `get_date_taken` (source lines 13-34) -/

/-- Scan `exif_data.items()` in order for the first tag named
`DateTimeOriginal` or `DateTime` (the `for`/`if` of source lines 23-25). -/
def findDateTag : List (String × String) → Option String
  | [] => none
  | (tag, v) :: rest =>
    if tag = "DateTimeOriginal" ∨ tag = "DateTime" then some v else findDateTag rest

/-- The `try` body of `get_date_taken`: `.error` when an exception is
raised (unreadable metadata, or `strptime` failing on the chosen tag),
`.ok none` when no date tag is found, `.ok (some d)` on a parsed date. -/
def exifDate : ExifRead → Except String (Option DateTime)
  | .err m => .error m
  | .noData => .ok none
  | .tags l =>
    match findDateTag l with
    | none => .ok none
    | some v =>
      match parseExifDate v with
      | some d => .ok (some d)
      | none => .error "time data does not match format"

/-- Embedding of `get_date_taken`: parsed EXIF date when the `try` body produces one;
otherwise (exception caught, or no date tag) the file's modification time.
Totality of this function is the embedding of the spec's guarantee that
the function never propagates an exception for an existing regular file. -/
def get_date_taken (f : FSFile) : DateTime :=
  match exifDate f.exif with
  | .ok (some d) => d
  | .ok none => f.mtime
  | .error _ => f.mtime

/-! ### Organizer: destination computation (source lines 70-93) -/

/-- Left-pad a decimal rendering with zeros, as `strftime("%m")`/`"%d"`
(width 2) and `"%Y"` (width 4) produce. -/
def padZeros (w : Nat) (s : String) : String :=
  ⟨List.replicate (w - s.length) '0' ++ s.data⟩

def pad2 (n : Nat) : String := padZeros 2 (natRepr n)

def pad4 (n : Nat) : String := padZeros 4 (natRepr n)

/-- Computation of `target_folder = source_dir / year / month / day` (source line 75). -/
def targetFolder (root : String) (d : DateTime) : String :=
  root ++ "/" ++ pad4 d.year ++ "/" ++ pad2 d.month ++ "/" ++ pad2 d.day

/-- The collision-suffixed stem for counter `k`: `stem-copy` for the first
retry (source line 84), `stem-copy{k}` from the second on (line 90). -/
def copyStem (stem : String) (k : Nat) : String :=
  if k ≤ 1 then stem ++ "-copy" else stem ++ "-copy" ++ natRepr k

/-- The `while target_path.exists()` loop of source lines 88-91, with
explicit fuel.  `resolveStem` supplies fuel `fs.paths.length + 1`, which is
proved sufficient below (the candidate names are pairwise distinct, so at
most `fs.paths.length` of them can be taken). -/
def findFreeStem (fs : FS) (folder stem ext : String) : Nat → Nat → String
  | 0, k => copyStem stem k
  | fuel + 1, k =>
    if pathExists fs (folder ++ "/" ++ copyStem stem k ++ ext) then
      findFreeStem fs folder stem ext fuel (k + 1)
    else copyStem stem k

/-- Collision resolution (source lines 79-91): keep the original stem when
`folder/stem+ext` is free, otherwise the first free `copyStem`. -/
def resolveStem (fs : FS) (folder stem ext : String) : String :=
  if pathExists fs (folder ++ "/" ++ stem ++ ext) then
    findFreeStem fs folder stem ext (fs.paths.length + 1) 1
  else stem

/-- The full destination path the file is moved to, as disambiguated
against the filesystem `fs` current when the file is processed. -/
def targetOf (fs : FS) (root : String) (f : FSFile) : String :=
  targetFolder root (get_date_taken f) ++ "/" ++
    resolveStem fs (targetFolder root (get_date_taken f)) f.stem f.ext ++ f.ext

/-! ### Filesystem mutations (source lines 99-107) -/

/-- Embedding of `target_folder.mkdir(parents=True, exist_ok=True)`: idempotent
directory creation (ancestor entries are not tracked separately; only the
leaf folder is ever tested for existence by the script). -/
def mkdirFS (fs : FS) (folder : String) : FS :=
  if folder ∈ fs.dirs then fs else { fs with dirs := folder :: fs.dirs }

def movedFile (f : FSFile) (folder newStem : String) : FSFile :=
  { f with dir := folder, stem := newStem }

/-- Embedding of `shutil.move`: the source path disappears, the destination appears;
content and metadata travel with the file. -/
def moveFS (fs : FS) (f : FSFile) (folder newStem : String) : FS :=
  { fs with
    files := movedFile f folder newStem ::
      fs.files.filter fun g => decide (FSFile.path g ≠ FSFile.path f) }

/-- Embedding of `os.utime(target_path, (ts, ts))`: set the modification time of the
file at path `p`. -/
def utimeFS (fs : FS) (p : String) (d : DateTime) : FS :=
  { fs with
    files := fs.files.map fun g => if FSFile.path g = p then { g with mtime := d } else g }

def ctimeFS (fs : FS) (p : String) (d : DateTime) : FS :=
  { fs with
    files := fs.files.map fun g => if FSFile.path g = p then { g with ctime := d } else g }

def moveE (fault : Bool) (fs : FS) (f : FSFile) (folder newStem : String) :
    Except String FS :=
  if fault then .error "move failed" else .ok (moveFS fs f folder newStem)

def utimeE (fault : Bool) (fs : FS) (p : String) (d : DateTime) : Except String FS :=
  if fault then .error "utime failed" else .ok (utimeFS fs p d)

/-- Modelled from the spec: the body of `win32_setctime.setctime` (source
line 107) is the imported `win32_setctime` dependency, whose sources are
not part of this repository.  Per the spec, setting creation time is
supported natively only where the filesystem records creation time, and on
platforms without the capability it is a no-op and not an error.  On a
supporting platform the per-file fault flag models an I/O failure of the
underlying call. -/
def setctimeE (supported fault : Bool) (fs : FS) (p : String) (d : DateTime) :
    Except String FS :=
  if supported then
    (if fault then .error "setctime failed" else .ok (ctimeFS fs p d))
  else .ok fs

/-! ### Organizer: per-file processing and the batch loop -/

structure Config where
  dryRun : Bool
  ctimeSupported : Bool
deriving DecidableEq, Repr

def dupLine (name newName : String) : String :=
  "Duplicate found for " ++ name ++ " - saving as " ++ newName

def wouldLine (name folder : String) : String :=
  "Would move: " ++ name ++ " -> " ++ folder

def movedLine (name folder : String) : String :=
  "Moved: " ++ name ++ " -> " ++ folder

def errorLine (name msg : String) : String :=
  "Error processing " ++ name ++ ": " ++ msg

/-- The body of the per-file `try` block, source lines 66-110.  `.error`
carries the raised message together with the filesystem state at the
moment of the raise (mutations already performed persist) and the lines
printed before the raise.  `.ok` carries the new filesystem state and the
lines printed. -/
def processFileE (cfg : Config) (root : String) (fs : FS) (f : FSFile) :
    Except (String × FS × List String) (FS × List String) :=
  let d := get_date_taken f
  let folder := targetFolder root d
  let newStem := resolveStem fs folder f.stem f.ext
  let dupLog : List String :=
    if pathExists fs (folder ++ "/" ++ f.stem ++ f.ext) then
      [dupLine f.name (newStem ++ f.ext)]
    else []
  if cfg.dryRun then .ok (fs, dupLog ++ [wouldLine f.name folder])
  else
    let fs1 := mkdirFS fs folder
    match moveE f.moveFault fs1 f folder newStem with
    | .error e => .error (e, fs1, dupLog)
    | .ok fs2 =>
      let target := folder ++ "/" ++ newStem ++ f.ext
      match utimeE f.utimeFault fs2 target d with
      | .error e => .error (e, fs2, dupLog)
      | .ok fs3 =>
        match setctimeE cfg.ctimeSupported f.ctimeFault fs3 target d with
        | .error e => .error (e, fs3, dupLog)
        | .ok fs4 => .ok (fs4, dupLog ++ [movedLine f.name folder])

/-- Running state of one `organize_pictures` call: the filesystem, the two
counters of source lines 62-63, and the lines printed so far. -/
structure RunState where
  fs : FS
  movedCount : Nat
  errorCount : Nat
  log : List String
deriving DecidableEq, Repr

/-- One loop iteration (source lines 65-114): the `try` body followed by
the `except` clause.  On success the moved counter is incremented exactly
when the pass is real (line 110 sits in the `else` branch of `dry_run`);
on a caught exception the error counter is incremented and the error is
logged with the filename and message (line 113). -/
def processFile (cfg : Config) (root : String) (st : RunState) (f : FSFile) : RunState :=
  match processFileE cfg root st.fs f with
  | .ok (fs', lines) =>
    { fs := fs'
      movedCount := st.movedCount + (if cfg.dryRun then 0 else 1)
      errorCount := st.errorCount
      log := st.log ++ lines }
  | .error (e, fs', lines) =>
    { fs := fs'
      movedCount := st.movedCount
      errorCount := st.errorCount + 1
      log := st.log ++ lines ++ [errorLine f.name e] }

def organizeFiles (cfg : Config) (root : String) : List FSFile → RunState → RunState
  | [], st => st
  | f :: rest, st => organizeFiles cfg root rest (processFile cfg root st f)

/-- The extension allow-list of source line 54. -/
def imageExtensions : List String :=
  [".jpg", ".jpeg", ".png", ".gif", ".bmp", ".tiff", ".tif", ".heic", ".heif",
   ".raw", ".cr2", ".nef", ".arw"]

/-- ASCII lower-casing of one character, as `str.lower()` acts on the
ASCII extensions of the allow-list. -/
def lowerChar (c : Char) : Char :=
  if 65 ≤ c.toNat ∧ c.toNat ≤ 90 then Char.ofNat (c.toNat + 32) else c

def lowerStr (s : String) : String := ⟨s.data.map lowerChar⟩

/-- The `source_dir.rglob('*')` membership test plus the suffix filter of
source lines 57-58: a regular file anywhere strictly below `root` whose
extension, lower-cased, is in the allow-list. -/
def isImageFile (root : String) (f : FSFile) : Bool :=
  (root ++ "/").data.isPrefixOf (FSFile.path f).data &&
    imageExtensions.contains (lowerStr f.ext)

def discoverImages (fs : FS) (root : String) : List FSFile :=
  fs.files.filter (isImageFile root)

def intRepr (n : Int) : String :=
  if n < 0 then "-" ++ natRepr n.natAbs else natRepr n.toNat

/-- The summary block of source lines 116-121.  The skipped count is
computed over the integers, as Python's `len - moved - errors` is. -/
def summaryLines (found moved errors : Nat) : List String :=
  ["Summary:",
   "Total images found: " ++ natRepr found,
   "Successfully moved: " ++ natRepr moved,
   "Errors: " ++ natRepr errors,
   "Skipped: " ++ intRepr ((found : Int) - (moved : Int) - (errors : Int))]

/-- Embedding of `organize_pictures(source_dir, dry_run)`, source lines 36-121: check
the root exists, snapshot the image-file list, process each file in order,
emit the summary. -/
def organize_pictures (cfg : Config) (root : String) (fs : FS) : RunState :=
  if root ∈ fs.dirs then
    let files := discoverImages fs root
    let st0 : RunState :=
      { fs := fs, movedCount := 0, errorCount := 0
        log := ["Found " ++ natRepr files.length ++ " image files"] }
    let stF := organizeFiles cfg root files st0
    { stF with log := stF.log ++ summaryLines files.length stF.movedCount stF.errorCount }
  else { fs := fs, movedCount := 0, errorCount := 0, log := ["Directory not found"] }

/-! ### Correctness of the collision-resolution search -/

theorem copyStem_inj {stem : String} {j k : Nat} (hj : 1 ≤ j) (hk : 1 ≤ k)
    (h : copyStem stem j = copyStem stem k) : j = k := by
  unfold copyStem at h
  by_cases hj1 : j ≤ 1 <;> by_cases hk1 : k ≤ 1
  · omega
  · rw [if_pos hj1, if_neg hk1] at h
    have hl := congrArg String.length h
    simp only [String.length_append] at hl
    have := natRepr_length_pos k
    omega
  · rw [if_neg hj1, if_pos hk1] at h
    have hl := congrArg String.length h
    simp only [String.length_append] at hl
    have := natRepr_length_pos j
    omega
  · rw [if_neg hj1, if_neg hk1] at h
    have hd := congrArg String.data h
    simp only [String.data_append, List.append_assoc, List.append_cancel_left_eq] at hd
    exact natRepr_inj (String.ext hd)

theorem candidate_inj {folder stem ext : String} {j k : Nat} (hj : 1 ≤ j) (hk : 1 ≤ k)
    (h : folder ++ "/" ++ copyStem stem j ++ ext = folder ++ "/" ++ copyStem stem k ++ ext) :
    j = k := by
  have hd := congrArg String.data h
  simp only [String.data_append, List.append_assoc, List.append_cancel_left_eq] at hd
  exact copyStem_inj hj hk (String.ext (List.append_cancel_right hd))

theorem nodup_subset_length {α : Type} [DecidableEq α] {l₁ l₂ : List α}
    (h : l₁.Nodup) (hs : l₁ ⊆ l₂) : l₁.length ≤ l₂.length :=
  (List.subperm_of_subset h hs).length_le

/-- On a finite filesystem some collision candidate is always free: there
are `fs.paths.length + 1` pairwise-distinct candidate paths and at most
`fs.paths.length` existing paths. -/
theorem exists_free_candidate (fs : FS) (folder stem ext : String) :
    ∃ j, j < fs.paths.length + 1 ∧
      ¬ pathExists fs (folder ++ "/" ++ copyStem stem (1 + j) ++ ext) := by
  by_contra hall
  push_neg at hall
  set N := fs.paths.length with hN
  have hmem : ∀ j, j < N + 1 →
      (folder ++ "/" ++ copyStem stem (1 + j) ++ ext) ∈ fs.paths := by
    intro j hj
    exact hall j hj
  have hnodup :
      ((List.range (N + 1)).map fun i => folder ++ "/" ++ copyStem stem (1 + i) ++ ext).Nodup := by
    refine List.Nodup.map_on ?_ (List.nodup_range (N + 1))
    intro x _ y _ hxy
    have := candidate_inj (by omega) (by omega) hxy
    omega
  have hsub :
      ((List.range (N + 1)).map fun i => folder ++ "/" ++ copyStem stem (1 + i) ++ ext) ⊆
        fs.paths := by
    intro p hp
    rcases List.mem_map.1 hp with ⟨i, hi, rfl⟩
    exact hmem i (List.mem_range.1 hi)
  have hlen := nodup_subset_length hnodup hsub
  simp only [List.length_map, List.length_range] at hlen
  omega

/-- The bounded `while` loop finds the first free candidate at or after
counter `k`, provided some candidate within the fuel is free. -/
theorem findFreeStem_spec (fs : FS) (folder stem ext : String) :
    ∀ fuel k,
      (∃ j, j < fuel ∧ ¬ pathExists fs (folder ++ "/" ++ copyStem stem (k + j) ++ ext)) →
      ∃ j, findFreeStem fs folder stem ext fuel k = copyStem stem (k + j) ∧
        ¬ pathExists fs (folder ++ "/" ++ copyStem stem (k + j) ++ ext) ∧
        ∀ i, i < j → pathExists fs (folder ++ "/" ++ copyStem stem (k + i) ++ ext) := by
  intro fuel
  induction fuel with
  | zero => intro k h; rcases h with ⟨j, hj, _⟩; omega
  | succ fuel ih =>
    intro k h
    by_cases hk : pathExists fs (folder ++ "/" ++ copyStem stem k ++ ext)
    · rcases h with ⟨j, hj, hfree⟩
      have hjne : j ≠ 0 := by
        intro h0
        rw [h0, Nat.add_zero] at hfree
        exact hfree hk
      obtain ⟨j', rfl⟩ : ∃ j', j = j' + 1 := ⟨j - 1, by omega⟩
      have hshift : k + (j' + 1) = (k + 1) + j' := by omega
      rw [hshift] at hfree
      obtain ⟨j₀, heq, hfree₀, hmin₀⟩ := ih (k + 1) ⟨j', by omega, hfree⟩
      refine ⟨j₀ + 1, ?_, ?_, ?_⟩
      · show findFreeStem fs folder stem ext (fuel + 1) k = _
        rw [findFreeStem, if_pos hk, heq]
        congr 1
        omega
      · have : k + (j₀ + 1) = (k + 1) + j₀ := by omega
        rw [this]
        exact hfree₀
      · intro i hi
        match i with
        | 0 => simpa using hk
        | i' + 1 =>
          have : k + (i' + 1) = (k + 1) + i' := by omega
          rw [this]
          exact hmin₀ i' (by omega)
    · refine ⟨0, ?_, by simpa using hk, by omega⟩
      show findFreeStem fs folder stem ext (fuel + 1) k = _
      rw [findFreeStem, if_neg hk, Nat.add_zero]

/-- The chosen destination stem always denotes a free path: either the
original name was free, or the first free `-copy` candidate was selected. -/
theorem resolveStem_free (fs : FS) (folder stem ext : String) :
    ¬ pathExists fs (folder ++ "/" ++ resolveStem fs folder stem ext ++ ext) := by
  unfold resolveStem
  by_cases h : pathExists fs (folder ++ "/" ++ stem ++ ext)
  · rw [if_pos h]
    obtain ⟨j, hj, hfree⟩ := exists_free_candidate fs folder stem ext
    obtain ⟨j₀, heq, hfree₀, _⟩ :=
      findFreeStem_spec fs folder stem ext (fs.paths.length + 1) 1 ⟨j, hj, hfree⟩
    rw [heq]
    exact hfree₀
  · rw [if_neg h]
    exact h

theorem pathExists_mkdirFS {fs : FS} {folder p : String}
    (h : pathExists (mkdirFS fs folder) p) : p = folder ∨ pathExists fs p := by
  unfold mkdirFS at h
  by_cases hf : folder ∈ fs.dirs
  · rw [if_pos hf] at h
    exact Or.inr h
  · rw [if_neg hf] at h
    unfold pathExists FS.paths at h ⊢
    simp only [List.mem_append, List.mem_cons] at h
    rcases h with h1 | h2 | h3
    · exact Or.inr (List.mem_append.2 (Or.inl h1))
    · exact Or.inl h2
    · exact Or.inr (List.mem_append.2 (Or.inr h3))

theorem appended_ne_base (folder s ext : String) : folder ++ "/" ++ s ++ ext ≠ folder := by
  intro h
  have hl := congrArg String.length h
  simp only [String.length_append] at hl
  have h1 : ("/" : String).length = 1 := rfl
  omega

/-- C3: throughout a real pass no existing file is ever overwritten.  At
the moment a file is moved — after `mkdir` of the destination folder, with
the destination disambiguated against the filesystem `fs` current for this
iteration — the chosen destination path does not exist.  Quantifying over
`fs` covers every iteration of the batch, since the loop threads the
updated filesystem through `processFile`. -/
theorem no_overwrite_at_move (fs : FS) (root : String) (f : FSFile) :
    ¬ pathExists (mkdirFS fs (targetFolder root (get_date_taken f))) (targetOf fs root f) := by
  intro h
  unfold targetOf at h
  rcases pathExists_mkdirFS h with heq | hex
  · exact appended_ne_base _ _ _ heq
  · exact resolveStem_free _ _ _ _ hex

/-- C4: whenever the initial destination `folder/stem+ext` already exists,
the file is placed under the first unused name of the sequence
`copyStem stem 1 = stem-copy`, `copyStem stem 2 = stem-copy2`,
`copyStem stem 3 = stem-copy3`, ...: the chosen counter `k` is at least 1,
its candidate path is unused, and every earlier candidate of the sequence
is taken. -/
theorem collision_first_free_name (fs : FS) (folder stem ext : String)
    (h : pathExists fs (folder ++ "/" ++ stem ++ ext)) :
    ∃ k, 1 ≤ k ∧ resolveStem fs folder stem ext = copyStem stem k ∧
      ¬ pathExists fs (folder ++ "/" ++ copyStem stem k ++ ext) ∧
      ∀ j, 1 ≤ j → j < k → pathExists fs (folder ++ "/" ++ copyStem stem j ++ ext) := by
  obtain ⟨j, hj, hfree⟩ := exists_free_candidate fs folder stem ext
  obtain ⟨j₀, heq, hfree₀, hmin₀⟩ :=
    findFreeStem_spec fs folder stem ext (fs.paths.length + 1) 1 ⟨j, hj, hfree⟩
  refine ⟨1 + j₀, by omega, ?_, hfree₀, ?_⟩
  · rw [resolveStem, if_pos h, heq]
  · intro j₂ hj₂1 hj₂k
    have hj₂ : j₂ = 1 + (j₂ - 1) := by omega
    rw [hj₂]
    exact hmin₀ (j₂ - 1) (by omega)

/-! ### Concrete fixtures used by evaluations and witnesses -/

/-- A photo already sitting at its computed destination
`Pictures/2024/03/10/photo.png`, as a first organizer run leaves it. -/
def photoAtDest : FSFile :=
  { dir := "Pictures/2024/03/10", stem := "photo", ext := ".png"
    exif := .tags [("DateTimeOriginal", "2024:03:10 12:00:00")]
    mtime := ⟨2024, 3, 10, 12, 0, 0⟩, ctime := ⟨2024, 3, 10, 12, 0, 0⟩
    moveFault := false, utimeFault := false, ctimeFault := false }

/-- The output tree of a completed organizer run over one photo. -/
def organizedFS : FS :=
  { files := [photoAtDest]
    dirs := ["Pictures", "Pictures/2024", "Pictures/2024/03", "Pictures/2024/03/10"] }

/-- A file whose metadata read raises (not a decodable image). -/
def unreadableFile : FSFile :=
  { dir := "Pictures", stem := "scan", ext := ".jpg"
    exif := .err "cannot identify image file"
    mtime := ⟨2022, 1, 2, 3, 4, 5⟩, ctime := ⟨2022, 1, 2, 3, 4, 5⟩
    moveFault := false, utimeFault := false, ctimeFault := false }

/-- EXIF carrying a generic `DateTime` tag before `DateTimeOriginal` in
iteration order (the usual order: IFD0's `DateTime` id 306 precedes the
Exif IFD's `DateTimeOriginal` id 36867). -/
def mixedTagFile : FSFile :=
  { dir := "Pictures", stem := "IMG_01", ext := ".jpg"
    exif := .tags [("DateTime", "2000:01:01 00:00:00"),
                   ("DateTimeOriginal", "2023:07:04 10:15:00")]
    mtime := ⟨2022, 1, 2, 3, 4, 5⟩, ctime := ⟨2022, 1, 2, 3, 4, 5⟩
    moveFault := false, utimeFault := false, ctimeFault := false }

/-- EXIF carrying only `DateTimeOriginal`. -/
def dtoOnlyFile : FSFile :=
  { dir := "Pictures", stem := "IMG_02", ext := ".jpg"
    exif := .tags [("DateTimeOriginal", "2023:07:04 10:15:00")]
    mtime := ⟨2022, 1, 2, 3, 4, 5⟩, ctime := ⟨2022, 1, 2, 3, 4, 5⟩
    moveFault := false, utimeFault := false, ctimeFault := false }

/-! ### C1: the second real pass is not a no-op -/

/-- C1: the spec requires that a real pass over the organizer's own output
performs no further moves, because destination equals source.  The code
violates this: for the file already at `Pictures/2024/03/10/photo.png`,
the computed destination is the file's own path, `target_path.exists()` is
therefore true, and the collision branch renames the file to
`photo-copy.png`, counting one move.  This theorem evaluates the embedded
code at that failing input. -/
theorem second_real_pass_renames :
    (organize_pictures ⟨false, true⟩ "Pictures" organizedFS).movedCount = 1 ∧
    (organize_pictures ⟨false, true⟩ "Pictures" organizedFS).fs.files.map FSFile.path =
      ["Pictures/2024/03/10/photo-copy.png"] := by
  decide

theorem collision_first_free_name_witness :
    pathExists organizedFS ("Pictures/2024/03/10" ++ "/" ++ "photo" ++ ".png") ∧
    ∃ k, 1 ≤ k ∧
      resolveStem organizedFS "Pictures/2024/03/10" "photo" ".png" = copyStem "photo" k ∧
      ¬ pathExists organizedFS
          ("Pictures/2024/03/10" ++ "/" ++ copyStem "photo" k ++ ".png") ∧
      ∀ j, 1 ≤ j → j < k →
        pathExists organizedFS
          ("Pictures/2024/03/10" ++ "/" ++ copyStem "photo" j ++ ".png") :=
  ⟨by decide,
   collision_first_free_name organizedFS "Pictures/2024/03/10" "photo" ".png" (by decide)⟩

/-! ### C5: date resolution is total and falls back to the mtime -/

/-- C5: `get_date_taken` is a total function `FSFile → DateTime` — the
embedding of "never propagates an exception to the caller" — and in each
fall-through situation the claim names (metadata/decode error, absence of
both date tags — including absent or empty EXIF — and unparseable tag
text) the result is the file's last-modified timestamp as local calendar
time. -/
theorem date_resolution_total_fallback (f : FSFile) :
    (∀ m, f.exif = ExifRead.err m → get_date_taken f = f.mtime) ∧
    (f.exif = ExifRead.noData → get_date_taken f = f.mtime) ∧
    (∀ ts, f.exif = ExifRead.tags ts → findDateTag ts = none →
      get_date_taken f = f.mtime) ∧
    (∀ ts v, f.exif = ExifRead.tags ts → findDateTag ts = some v →
      parseExifDate v = none → get_date_taken f = f.mtime) := by
  refine ⟨?_, ?_, ?_, ?_⟩
  · intro m hm
    simp [get_date_taken, exifDate, hm]
  · intro hm
    simp [get_date_taken, exifDate, hm]
  · intro ts h1 h2
    simp [get_date_taken, exifDate, h1, h2]
  · intro ts v h1 h2 h3
    simp [get_date_taken, exifDate, h1, h2, h3]

theorem date_resolution_total_fallback_witness :
    get_date_taken unreadableFile = ⟨2022, 1, 2, 3, 4, 5⟩ :=
  (date_resolution_total_fallback unreadableFile).1 "cannot identify image file" rfl

/-! ### C6: no preference for DateTimeOriginal -/

/-- C6 counterexample: `mixedTagFile` has a `DateTimeOriginal` tag with
text in the layout `YYYY:MM:DD HH:MM:SS`, yet `get_date_taken` does not
return its parse — the earlier generic `DateTime` tag wins, because the
loop returns on the first tag named either way. -/
theorem datetime_tag_preempts_original :
    parseExifDate "2023:07:04 10:15:00" = some ⟨2023, 7, 4, 10, 15, 0⟩ ∧
    get_date_taken mixedTagFile = ⟨2000, 1, 1, 0, 0, 0⟩ ∧
    get_date_taken mixedTagFile ≠ ⟨2023, 7, 4, 10, 15, 0⟩ := by
  decide

/-- C6 amended: `get_date_taken` returns the parse of the value of the
*first* tag in EXIF iteration order whose name is `DateTimeOriginal` or
`DateTime`; when both are present, whichever appears first in the tag
iteration order wins — there is no preference for `DateTimeOriginal`. -/
theorem first_matching_tag_parsed (f : FSFile) (ts : List (String × String))
    (v : String) (d : DateTime) (h1 : f.exif = ExifRead.tags ts)
    (h2 : findDateTag ts = some v) (h3 : parseExifDate v = some d) :
    get_date_taken f = d := by
  simp [get_date_taken, exifDate, h1, h2, h3]

theorem first_matching_tag_parsed_witness :
    get_date_taken dtoOnlyFile = ⟨2023, 7, 4, 10, 15, 0⟩ :=
  first_matching_tag_parsed dtoOnlyFile
    [("DateTimeOriginal", "2023:07:04 10:15:00")] "2023:07:04 10:15:00"
    ⟨2023, 7, 4, 10, 15, 0⟩ rfl rfl (by decide)

/-! ### C7: a dry run mutates nothing -/

theorem organizeFiles_dry_fs (b : Bool) (root : String) :
    ∀ (files : List FSFile) (st : RunState),
      (organizeFiles ⟨true, b⟩ root files st).fs = st.fs := by
  intro files
  induction files with
  | nil => intro st; rfl
  | cons f rest ih =>
    intro st
    show (organizeFiles ⟨true, b⟩ root rest (processFile ⟨true, b⟩ root st f)).fs = st.fs
    rw [ih]
    simp [processFile, processFileE]

/-- C7: with `dry_run=True` the filesystem is returned unchanged — no
directory is created, no file is moved, no timestamp is altered
(directories, file locations, `mtime` and `ctime` are all components of
`FS`). -/
theorem dry_run_no_mutation (b : Bool) (root : String) (fs : FS) :
    (organize_pictures ⟨true, b⟩ root fs).fs = fs := by
  unfold organize_pictures
  by_cases h : root ∈ fs.dirs
  · rw [if_pos h]
    exact organizeFiles_dry_fs b root _ _
  · rw [if_neg h]

/-! ### C2: creation-time setting on non-supporting platforms -/

/-- C2: on a platform where the filesystem does not support setting
creation time (`ctimeSupported = false`), a real pass over a file whose
move and mtime-write succeed records no per-file error, counts the file as
successfully moved, and leaves the filesystem exactly as it stands after
`mkdir`, the move and the mtime write — the set-creation-time step
contributes nothing (a no-op, per the spec-modelled `setctimeE`),
regardless of the file's `ctimeFault` flag. -/
theorem ctime_unsupported_noop (root : String) (st : RunState) (f : FSFile)
    (h1 : f.moveFault = false) (h2 : f.utimeFault = false) :
    (processFile ⟨false, false⟩ root st f).errorCount = st.errorCount ∧
    (processFile ⟨false, false⟩ root st f).movedCount = st.movedCount + 1 ∧
    (processFile ⟨false, false⟩ root st f).fs =
      utimeFS
        (moveFS (mkdirFS st.fs (targetFolder root (get_date_taken f))) f
          (targetFolder root (get_date_taken f))
          (resolveStem st.fs (targetFolder root (get_date_taken f)) f.stem f.ext))
        (targetFolder root (get_date_taken f) ++ "/" ++
          resolveStem st.fs (targetFolder root (get_date_taken f)) f.stem f.ext ++ f.ext)
        (get_date_taken f) := by
  simp [processFile, processFileE, moveE, utimeE, setctimeE, h1, h2]

/-- A file whose `setctime` call would fault if it were attempted. -/
def ctimeFaultFile : FSFile :=
  { dir := "Pictures", stem := "pic", ext := ".jpg", exif := .noData
    mtime := ⟨2022, 1, 2, 3, 4, 5⟩, ctime := ⟨2022, 1, 2, 3, 4, 5⟩
    moveFault := false, utimeFault := false, ctimeFault := true }

def baseState : RunState :=
  { fs := { files := [ctimeFaultFile], dirs := ["Pictures"] }
    movedCount := 0, errorCount := 0, log := [] }

theorem ctime_unsupported_noop_witness :
    (processFile ⟨false, false⟩ "Pictures" baseState ctimeFaultFile).errorCount =
      baseState.errorCount ∧
    (processFile ⟨false, false⟩ "Pictures" baseState ctimeFaultFile).movedCount =
      baseState.movedCount + 1 ∧
    (processFile ⟨false, false⟩ "Pictures" baseState ctimeFaultFile).fs =
      utimeFS
        (moveFS (mkdirFS baseState.fs
            (targetFolder "Pictures" (get_date_taken ctimeFaultFile))) ctimeFaultFile
          (targetFolder "Pictures" (get_date_taken ctimeFaultFile))
          (resolveStem baseState.fs
            (targetFolder "Pictures" (get_date_taken ctimeFaultFile))
            ctimeFaultFile.stem ctimeFaultFile.ext))
        (targetFolder "Pictures" (get_date_taken ctimeFaultFile) ++ "/" ++
          resolveStem baseState.fs
            (targetFolder "Pictures" (get_date_taken ctimeFaultFile))
            ctimeFaultFile.stem ctimeFaultFile.ext ++ ctimeFaultFile.ext)
        (get_date_taken ctimeFaultFile) :=
  ctime_unsupported_noop "Pictures" baseState ctimeFaultFile rfl rfl

/-! ### C8: per-file errors are caught and the batch continues -/

/-- C8: whenever the per-file body raises (any step: the fault-modelled
move, mtime write or ctime write), the loop catches the error, logs it
with the filename and error text, increments the error tally, leaves the
moved count alone, and continues with the remaining files from the
partially-mutated state — a single file's failure never aborts the
batch. -/
theorem error_caught_batch_continues (cfg : Config) (root : String) (st : RunState)
    (f : FSFile) (rest : List FSFile) (e : String) (fs' : FS) (lines : List String)
    (h : processFileE cfg root st.fs f = .error (e, fs', lines)) :
    organizeFiles cfg root (f :: rest) st =
      organizeFiles cfg root rest
        { fs := fs', movedCount := st.movedCount, errorCount := st.errorCount + 1
          log := st.log ++ lines ++ [errorLine (FSFile.name f) e] } := by
  show organizeFiles cfg root rest (processFile cfg root st f) = _
  rw [processFile, h]

/-- A file whose move raises (e.g. the file is locked). -/
def moveFaultFile : FSFile :=
  { dir := "Pictures", stem := "locked", ext := ".jpg", exif := .noData
    mtime := ⟨2022, 1, 2, 3, 4, 5⟩, ctime := ⟨2022, 1, 2, 3, 4, 5⟩
    moveFault := true, utimeFault := false, ctimeFault := false }

def stateWithLocked : RunState :=
  { fs := { files := [moveFaultFile]
            dirs := ["Pictures", "Pictures/2022", "Pictures/2022/01", "Pictures/2022/01/02"] }
    movedCount := 3, errorCount := 0, log := ["earlier output"] }

theorem error_caught_batch_continues_witness :
    processFileE ⟨false, true⟩ "Pictures" stateWithLocked.fs moveFaultFile =
      .error ("move failed", stateWithLocked.fs, []) ∧
    organizeFiles ⟨false, true⟩ "Pictures" [moveFaultFile] stateWithLocked =
      organizeFiles ⟨false, true⟩ "Pictures" []
        { fs := stateWithLocked.fs, movedCount := stateWithLocked.movedCount
          errorCount := stateWithLocked.errorCount + 1
          log := stateWithLocked.log ++ [] ++
            [errorLine (FSFile.name moveFaultFile) "move failed"] } :=
  ⟨rfl, error_caught_batch_continues ⟨false, true⟩ "Pictures" stateWithLocked moveFaultFile
    [] "move failed" stateWithLocked.fs [] rfl⟩

/-! ### C9: every discovered file is counted, on a real pass -/

theorem processFile_real_counts (b : Bool) (root : String) (st : RunState) (f : FSFile) :
    (processFile ⟨false, b⟩ root st f).movedCount +
      (processFile ⟨false, b⟩ root st f).errorCount =
    st.movedCount + st.errorCount + 1 := by
  unfold processFile
  cases hpe : processFileE ⟨false, b⟩ root st.fs f with
  | error v => rcases v with ⟨e, fs', lines⟩; simp; omega
  | ok v => rcases v with ⟨fs', lines⟩; simp; omega

theorem organizeFiles_real_counts (b : Bool) (root : String) :
    ∀ (files : List FSFile) (st : RunState),
      (organizeFiles ⟨false, b⟩ root files st).movedCount +
        (organizeFiles ⟨false, b⟩ root files st).errorCount =
      st.movedCount + st.errorCount + files.length := by
  intro files
  induction files with
  | nil => intro st; rfl
  | cons f rest ih =>
    intro st
    show (organizeFiles ⟨false, b⟩ root rest (processFile ⟨false, b⟩ root st f)).movedCount +
      (organizeFiles ⟨false, b⟩ root rest (processFile ⟨false, b⟩ root st f)).errorCount = _
    rw [ih (processFile ⟨false, b⟩ root st f)]
    have := processFile_real_counts b root st f
    simp only [List.length_cons]
    omega

/-- C9 counterexample: the skipped count is not always zero.  On a dry-run
pass (the pass the program always performs first) neither counter is
incremented, so for a tree holding one image the summary's
`found − moved − errored` is 1, not 0, and the discovered file is counted
neither as moved nor as errored. -/
theorem dry_pass_skips_all :
    (organize_pictures ⟨true, true⟩ "Pictures" organizedFS).movedCount +
      (organize_pictures ⟨true, true⟩ "Pictures" organizedFS).errorCount ≠
    (discoverImages organizedFS "Pictures").length := by
  decide

/-- C9 amended: the summary reports `skipped = found − moved − errored`,
and on every *real* (non-dry-run) pass this is zero: each discovered file
is counted either as successfully moved or as errored. -/
theorem real_pass_every_file_counted (b : Bool) (root : String) (fs : FS)
    (h : root ∈ fs.dirs) :
    (organize_pictures ⟨false, b⟩ root fs).movedCount +
      (organize_pictures ⟨false, b⟩ root fs).errorCount =
    (discoverImages fs root).length := by
  unfold organize_pictures
  rw [if_pos h]
  simp only []
  rw [organizeFiles_real_counts]
  simp

theorem real_pass_every_file_counted_witness :
    "Pictures" ∈ organizedFS.dirs ∧
    (organize_pictures ⟨false, true⟩ "Pictures" organizedFS).movedCount +
      (organize_pictures ⟨false, true⟩ "Pictures" organizedFS).errorCount =
    (discoverImages organizedFS "Pictures").length :=
  ⟨by decide, real_pass_every_file_counted true "Pictures" organizedFS (by decide)⟩

/-! ### C10: an error after the move leaves the file relocated but errored -/

/-- C10: per-file processing is not atomic on error.  When the move
succeeds but the subsequent timestamp write raises (`utimeFault`), the
file remains at its destination path in the resulting filesystem, yet the
iteration is counted in the error tally and not in the moved count — so
the reported successfully-moved total undercounts the files actually
relocated. -/
theorem error_after_move_undercounts (root : String) (st : RunState) (f : FSFile)
    (h1 : f.moveFault = false) (h2 : f.utimeFault = true) :
    (processFile ⟨false, true⟩ root st f).movedCount = st.movedCount ∧
    (processFile ⟨false, true⟩ root st f).errorCount = st.errorCount + 1 ∧
    pathExists (processFile ⟨false, true⟩ root st f).fs (targetOf st.fs root f) := by
  refine ⟨?_, ?_, ?_⟩
  · simp [processFile, processFileE, moveE, utimeE, h1, h2]
  · simp [processFile, processFileE, moveE, utimeE, h1, h2]
  · simp only [processFile, processFileE, moveE, utimeE, h1, h2, if_true, if_false,
      Bool.false_eq_true, ite_false, ite_true]
    simp [pathExists, FS.paths, moveFS, movedFile, targetOf, FSFile.path]

/-- A file whose mtime write raises after a successful move. -/
def utimeFaultFile : FSFile :=
  { dir := "Pictures", stem := "readonly", ext := ".jpg", exif := .noData
    mtime := ⟨2022, 1, 2, 3, 4, 5⟩, ctime := ⟨2022, 1, 2, 3, 4, 5⟩
    moveFault := false, utimeFault := true, ctimeFault := false }

def stateWithReadonly : RunState :=
  { fs := { files := [utimeFaultFile], dirs := ["Pictures"] }
    movedCount := 0, errorCount := 0, log := [] }

theorem error_after_move_undercounts_witness :
    (processFile ⟨false, true⟩ "Pictures" stateWithReadonly utimeFaultFile).movedCount =
      stateWithReadonly.movedCount ∧
    (processFile ⟨false, true⟩ "Pictures" stateWithReadonly utimeFaultFile).errorCount =
      stateWithReadonly.errorCount + 1 ∧
    pathExists (processFile ⟨false, true⟩ "Pictures" stateWithReadonly utimeFaultFile).fs
      (targetOf stateWithReadonly.fs "Pictures" utimeFaultFile) :=
  error_after_move_undercounts "Pictures" stateWithReadonly utimeFaultFile rfl rfl

end OrganizePhotos
